import Mathlib

/-!
A shallow embedding of the mascot compositing and blend orchestration
pipeline of the tang repository.  The embedding covers:

* src/server.mjs, the OpenAI variant: normalizeToSquare, getLogoBuffer,
  pickAnchor, placeMascotDraft, makeRectMask, openaiBlendMascot and the
  photo handler with its two raced blend attempts;
* src/unnamed/part_003, the Gemini variant: aiInsertLogoCat,
  fallbackOverlay and its photo handler.

Modelling conventions.  JavaScript numbers in pixel arithmetic are exact
rationals and integers; Math.round is round half up and Math.floor is the
floor.  The sharp image library is modelled symbolically: an image is the
term describing the operations that built it, and metadata read backs
(the width and height sharp reports for an intermediate image) are
supplied by an oracle function, since they depend on the decoded mascot
asset bytes.  The ambient Math.random of the source is modelled as a
stream of samples in [0, 1) consumed in call order.  Network and provider
effects are modelled by passing the outcome of each fallible step as
data: a step that can throw is an Except value, a provider call that the
source absorbs into null is an Option value.
-/

namespace Tang

/-- JS Math.round for the values used by the pipeline: round half up. -/
def jsRound (q : ℚ) : ℤ := ⌊q + 1/2⌋

/-- Symbolic sharp pipeline terms: an image is the tree of operations that
built it.  raw is an input byte buffer; resizeSq is resize(size, size);
resizeW is resize with only a width, keeping aspect; rotate is rotation
with transparent background fill; shadowOf is the blurred silhouette
canvas built for the contact shadow; composite2 is the final two layer
composite of shadow and sticker over a base, at the given offsets. -/
inductive SImg where
  | raw (bytes : ℕ)
  | resizeSq (img : SImg) (size : ℤ)
  | resizeW (img : SImg) (width : ℤ)
  | rotate (img : SImg) (deg : ℚ)
  | shadowOf (img : SImg) (w h : ℤ)
  | composite2 (base shadow sticker : SImg) (shadowLeft shadowTop left top : ℤ)
deriving DecidableEq

/-- The placement rectangle of server.mjs line 131: post rotation
bounding box position and size, in pixels of a given canvas. -/
structure Rect where
  left : ℤ
  top : ℤ
  w : ℤ
  h : ℤ
deriving DecidableEq

/-- One corner anchor candidate of pickAnchor, server.mjs lines 99 to 104. -/
structure Anchor where
  left : ℤ
  top : ℤ
deriving DecidableEq

/-- The four corner candidates of pickAnchor (server.mjs lines 99 to 104):
bottom right, bottom left, top right, top left, each inset by pad. -/
def anchorList (W H stickerW stickerH pad : ℤ) : List Anchor :=
  [⟨W - stickerW - pad, H - stickerH - pad⟩,
   ⟨pad, H - stickerH - pad⟩,
   ⟨W - stickerW - pad, pad⟩,
   ⟨pad, pad⟩]

/-- pickAnchor, server.mjs lines 98 to 106: anchors[Math.floor(r * 4)]
where r is the Math.random sample.  For r in [0, 1) the index is always
in range, so the getD default is never reached. -/
def pickAnchor (W H stickerW stickerH pad : ℤ) (r : ℚ) : Anchor :=
  (anchorList W H stickerW stickerH pad).getD (⌊r * 4⌋).toNat
    ⟨W - stickerW - pad, H - stickerH - pad⟩

/-- Sticker width of server.mjs line 117: Math.round(W * (0.20 + r * 0.05)),
a 20 to 25 percent band of the canvas width. -/
def draftStickerW (size : ℤ) (r0 : ℚ) : ℤ :=
  jsRound ((size : ℚ) * (20/100 + r0 * (5/100)))

/-- Corner margin of server.mjs line 121: Math.round(W * 0.035). -/
def draftPad (size : ℤ) : ℤ := jsRound ((size : ℚ) * (35/1000))

/-- Rotation angle of server.mjs line 123: r * 10 - 5, degrees in [-5, 5). -/
def draftRotateDeg (r2 : ℚ) : ℚ := r2 * 10 - 5

/-- The mascot resized to the planned sticker width, server.mjs line 118. -/
def draftLogo (logoBuf : SImg) (size : ℤ) (r0 : ℚ) : SImg :=
  SImg.resizeW logoBuf (draftStickerW size r0)

/-- The resized mascot rotated by the planned angle, server.mjs lines 126 to 129. -/
def draftRotated (logoBuf : SImg) (size : ℤ) (r0 r2 : ℚ) : SImg :=
  SImg.rotate (draftLogo logoBuf size r0) (draftRotateDeg r2)

/-- A draft composite: the base photo with mascot and shadow rendered,
plus the placement rect, server.mjs lines 108 to 151. -/
structure Draft where
  composited : SImg
  rect : Rect
deriving DecidableEq

/-- placeMascotDraft, server.mjs lines 113 to 151.  meta is the sharp
metadata oracle giving the decoded width and height of an intermediate
image (the source destructures these from await sharp(...).metadata()).
rng is the stream of ambient Math.random samples, consumed in source
order: sample 0 for the sticker width, sample 1 inside pickAnchor,
sample 2 for the rotation angle.  The anchor is computed from the
pre-rotation dims (lw, lh); the rect then uses the post rotation dims. -/
def placeMascotDraft (meta : SImg → ℤ × ℤ) (userBuf logoBuf : SImg) (size : ℤ)
    (rng : ℕ → ℚ) : Draft :=
  let base := SImg.resizeSq userBuf size
  let logo := draftLogo logoBuf size (rng 0)
  let lw := (meta logo).1
  let lh := (meta logo).2
  let pad := draftPad size
  let anchor := pickAnchor size size lw lh pad (rng 1)
  let rotated := draftRotated logoBuf size (rng 0) (rng 2)
  let rw := (meta rotated).1
  let rh := (meta rotated).2
  let rect : Rect := ⟨anchor.left, anchor.top, rw, rh⟩
  let shadow := SImg.shadowOf rotated rw rh
  ⟨SImg.composite2 base shadow rotated (rect.left + 6) (rect.top + 6) rect.left rect.top,
   rect⟩

/-- The mask produced by makeRectMask: an opaque (locked) canvas of the
given size with one transparent (editable) rectangular hole. -/
structure MaskSpec where
  width : ℤ
  height : ℤ
  holeLeft : ℤ
  holeTop : ℤ
  holeW : ℤ
  holeH : ℤ
deriving DecidableEq

/-- makeRectMask, server.mjs lines 155 to 176: the hole canvas has size
max(1, w + padPx * 2) by max(1, h + padPx * 2) and is composited at
(max(0, left - padPx), max(0, top - padPx)).  Only the left and top
offsets are clamped; the hole size is never reduced. -/
def makeRectMask (width height : ℤ) (rect : Rect) (padPx : ℤ) : MaskSpec :=
  { width := width
    height := height
    holeLeft := max 0 (rect.left - padPx)
    holeTop := max 0 (rect.top - padPx)
    holeW := max 1 (rect.w + padPx * 2)
    holeH := max 1 (rect.h + padPx * 2) }

/-- A decoded raster image for the normalizer: dimensions plus a pixel
grid.  Pixel values are abstract naturals. -/
structure PImg where
  width : ℕ
  height : ℕ
  px : ℕ → ℕ → ℕ

/-- A raw input as sharp sees it: the stored raster plus the EXIF
orientation flag.  orientSwap is true for the 90 degree orientations
(EXIF 5 to 8), whose orientation corrected raster has transposed
dimensions. -/
structure RawImg where
  stored : PImg
  orientSwap : Bool

/-- The raster produced by sharp .rotate() with no argument: the EXIF
orientation corrected image.  For a swapping orientation the raster is
transposed, so its dimensions are exchanged. -/
def orientCorrect (img : RawImg) : PImg :=
  if img.orientSwap then
    ⟨img.stored.height, img.stored.width, fun x y => img.stored.px y x⟩
  else img.stored

/-- sharp metadata(): it reports the stored header dimensions of the
input, not the dimensions of the orientation corrected raster. -/
def sharpMetaDims (img : RawImg) : ℕ × ℕ := (img.stored.width, img.stored.height)

/-- sharp extract: crop the w by h region at (left, top). -/
def extract (left top w h : ℕ) (img : PImg) : PImg :=
  ⟨w, h, fun x y => img.px (left + x) (top + y)⟩

/-- sharp extract with its bounds check: extract_area throws when the
requested region leaves the raster. -/
def extractChecked (left top w h : ℕ) (img : PImg) : Except Unit PImg :=
  if left + w ≤ img.width ∧ top + h ≤ img.height then
    Except.ok (extract left top w h img)
  else Except.error ()

/-- sharp resize(w, h) with the default cover fit: the output has exactly
the requested dimensions; resampling is modelled as nearest neighbour. -/
def resizePx (w h : ℕ) (img : PImg) : PImg :=
  ⟨w, h, fun x y => img.px (x * img.width / w) (y * img.height / h)⟩

/-- normalizeToSquare, server.mjs lines 80 to 88 (identical in
src/unnamed/part_003 lines 40 to 48): w and h come from sharp metadata,
so they are the stored pre-orientation dimensions, falling back to size
when the metadata value is falsy (the JS || operator); side = min(w, h);
the centered crop at (floor((w - side)/2), floor((h - side)/2)) is then
taken from the orientation corrected raster (rotate precedes extract in
the pipeline), and throws when it leaves that raster. -/
def normalizeToSquare (img : RawImg) (size : ℕ) : Except Unit PImg :=
  let w := if (sharpMetaDims img).1 = 0 then size else (sharpMetaDims img).1
  let h := if (sharpMetaDims img).2 = 0 then size else (sharpMetaDims img).2
  let side := min w h
  let left := (w - side) / 2
  let top := (h - side) / 2
  match extractChecked left top side side (orientCorrect img) with
  | Except.error e => Except.error e
  | Except.ok cropped => Except.ok (resizePx size size cropped)

/-- The C6 property of normalizeToSquare for a decodable image: the call
succeeds and crops the centered square of side min(width, height) at
(floor((width - side)/2), floor((height - side)/2)) from the corrected
raster, any successful output is exactly size by size, the crop stays
inside the corrected raster, and each cropped pixel is the raster pixel
translated by the crop origin. -/
def normalizeSpec (img : RawImg) (N : ℕ) : Prop :=
  normalizeToSquare img N =
    Except.ok (resizePx N N
      (extract ((img.stored.width - min img.stored.width img.stored.height) / 2)
        ((img.stored.height - min img.stored.width img.stored.height) / 2)
        (min img.stored.width img.stored.height)
        (min img.stored.width img.stored.height) (orientCorrect img))) ∧
  (∀ out : PImg, normalizeToSquare img N = Except.ok out →
    out.width = N ∧ out.height = N) ∧
  (img.stored.width - min img.stored.width img.stored.height) / 2 +
      min img.stored.width img.stored.height ≤ (orientCorrect img).width ∧
  (img.stored.height - min img.stored.width img.stored.height) / 2 +
      min img.stored.width img.stored.height ≤ (orientCorrect img).height ∧
  ∀ x y : ℕ,
    (extract ((img.stored.width - min img.stored.width img.stored.height) / 2)
      ((img.stored.height - min img.stored.width img.stored.height) / 2)
      (min img.stored.width img.stored.height)
      (min img.stored.width img.stored.height) (orientCorrect img)).px x y =
    (orientCorrect img).px
      ((img.stored.width - min img.stored.width img.stored.height) / 2 + x)
      ((img.stored.height - min img.stored.width img.stored.height) / 2 + y)

/-- Caption tags for the two caption strings of each variant.  blended
and plain are the two captions of server.mjs line 279; genPfp and
shySticker are the two captions of src/unnamed/part_003 line 145. -/
inductive Caption where
  | blended
  | plain
  | genPfp
  | shySticker
deriving DecidableEq

/-- Caption choice of server.mjs line 279: it depends only on whether the
OpenAI provider is configured, not on which image is delivered. -/
def captionOf (useOpenai : Bool) : Caption :=
  if useOpenai then Caption.blended else Caption.plain

/-- Outcome of one OpenAI images.edits call as observed by
openaiBlendMascot: thrown covers any rejection (network error, non 2xx
turned into an SDK exception, quota signal); payload is a response the
SDK returned, whose first datum may or may not carry a b64 image. -/
inductive ProviderResp where
  | thrown
  | payload (b64 : Option SImg)
deriving DecidableEq

/-- openaiBlendMascot, server.mjs lines 183 to 207.  The whole body is
wrapped in try/catch: every thrown provider failure is caught and
becomes null, a payload without an image becomes null, and a payload
with an image is resized to size by size.  maskPngBuf is part of the
request but does not influence the classification of the response. -/
def openaiBlendMascot (hasClient : Bool) (draftPngBuf : SImg) (maskPngBuf : MaskSpec)
    (resp : ProviderResp) (size : ℤ) : Option SImg :=
  if hasClient = false then none
  else
    match resp with
    | ProviderResp.thrown => none
    | ProviderResp.payload none => none
    | ProviderResp.payload (some img) => some (SImg.resizeSq img size)

/-- Outcome of one Gemini generateContent call as observed by
aiInsertLogoCat in src/unnamed/part_003: netError is a rejected fetch;
body none is a response whose body is not JSON, so resp.json() throws;
body (some p) is a parsed JSON body whose candidate parts contain an
inline image exactly when p is some. -/
inductive GeminiResp where
  | netError
  | body (payload : Option (Option SImg))
deriving DecidableEq

/-- aiInsertLogoCat, src/unnamed/part_003 lines 66 to 92.  There is no
try/catch in this function: a rejected fetch or a non JSON body throws
(Except.error) and propagates to the caller; a parsed body without an
image part returns null (ok none); an image part is resized. -/
def aiInsertLogoCat (userJpegBuf logoPngBuf : SImg) (resp : GeminiResp)
    (size : ℤ) : Except Unit (Option SImg) :=
  match resp with
  | GeminiResp.netError => Except.error ()
  | GeminiResp.body none => Except.error ()
  | GeminiResp.body (some none) => Except.ok none
  | GeminiResp.body (some (some img)) => Except.ok (some (SImg.resizeSq img size))

/-- fallbackOverlay, src/unnamed/part_003 lines 95 to 116: sticker at a
fixed bottom right anchor, width 22 percent of the canvas, pad 3 percent,
blurred silhouette shadow offset by 6 pixels beneath the sticker. -/
def fallbackOverlay (meta : SImg → ℤ × ℤ) (userImg logoPng : SImg) (size : ℤ) : SImg :=
  let base := SImg.resizeSq userImg size
  let W := size
  let stickerW := jsRound ((W : ℚ) * (22/100))
  let logo := SImg.resizeW logoPng stickerW
  let lw := (meta logo).1
  let lh := (meta logo).2
  let pad := jsRound ((W : ℚ) * (3/100))
  let left := W - lw - pad
  let top := W - lh - pad
  let blurred := SImg.shadowOf logo lw lh
  SImg.composite2 base blurred logo (left + 6) (top + 6) left top

/-- Per request inputs of the part_003 photo handler, with each fallible
step outcome passed as data: fileId of the largest photo size, the photo
download, the normalization result, the mascot fetch, and the Gemini
response. -/
structure GeminiEnv where
  fileId : Option ℕ
  original : Except Unit SImg
  userNorm : Except Unit SImg
  logoBuf : Except Unit SImg
  aiResp : GeminiResp

/-- What the part_003 handler sends back: a photo with a caption, the
could-not-read-that-image reply for a missing fileId, or the generic
error reply produced by the catch block. -/
inductive GReply where
  | photo (img : SImg) (c : Caption)
  | cantRead
  | errorMsg
deriving DecidableEq

/-- The message:photo handler of src/unnamed/part_003 lines 123 to 151.
Any throw inside the try block (download, normalization, mascot fetch,
or a throw out of aiInsertLogoCat) reaches the catch block, which sends
the generic error reply.  Otherwise the AI output or the fallback
overlay is delivered, with the caption chosen by whether the AI output
was present. -/
def geminiHandler (meta : SImg → ℤ × ℤ) (size : ℤ) (env : GeminiEnv) : GReply :=
  match env.fileId with
  | none => GReply.cantRead
  | some _ =>
    match env.original, env.userNorm, env.logoBuf with
    | Except.ok _, Except.ok userNorm, Except.ok logoBuf =>
      match aiInsertLogoCat userNorm logoBuf env.aiResp size with
      | Except.error _ => GReply.errorMsg
      | Except.ok (some img) => GReply.photo img Caption.genPfp
      | Except.ok none =>
          GReply.photo (fallbackOverlay meta userNorm logoBuf size) Caption.shySticker
    | _, _, _ => GReply.errorMsg

/-- Events of the blend attempt loop of server.mjs lines 257 to 268:
start of attempt n, and the fixed 1.2 second backoff sleep. -/
inductive BlendEv where
  | attemptStart (n : ℕ)
  | backoffWait
deriving DecidableEq

/-- The two raced blend attempts of server.mjs lines 257 to 268.  t1 and
t2 record whether the 12 second (resp. 8 second) timer won the race, in
which case the attempt result is discarded and treated as null.  Attempt
2 runs only when attempt 1 produced nothing, after the backoff. -/
def serverAttempts (useOpenai : Bool) (draftFull : SImg) (mask : MaskSpec)
    (resp1 resp2 : ProviderResp) (t1 t2 : Bool) (size : ℤ) :
    Option SImg × List BlendEv :=
  if useOpenai then
    match (if t1 then none else openaiBlendMascot useOpenai draftFull mask resp1 size) with
    | some img => (some img, [BlendEv.attemptStart 1])
    | none =>
        ((if t2 then none else openaiBlendMascot useOpenai draftFull mask resp2 size),
         [BlendEv.attemptStart 1, BlendEv.backoffWait, BlendEv.attemptStart 2])
  else (none, [])

/-- Configuration of the server.mjs process: USE_OPENAI, OUTPUT_SIZE
(SIZE) and AI_INPUT_SIZE (AI_IN_SIZE). -/
structure SCfg where
  useOpenai : Bool
  size : ℤ
  aiInSize : ℤ

/-- Per request inputs of the server.mjs photo handler: the fileId, the
outcomes of the photo download, both normalizations and the mascot cache
read, the provider responses and timer outcomes of the two attempts, the
sharp metadata oracle, and the Math.random streams of the two
placeMascotDraft calls. -/
structure SEnv where
  fileId : Option ℕ
  original : Except Unit SImg
  normAI : Except Unit SImg
  normOut : Except Unit SImg
  logo : Except Unit SImg
  resp1 : ProviderResp
  resp2 : ProviderResp
  timeout1 : Bool
  timeout2 : Bool
  meta : SImg → ℤ × ℤ
  rngSmall : ℕ → ℚ
  rngFull : ℕ → ℚ

/-- Whether the delivered image came from the provider or from the local
fallback compositor. -/
inductive Provenance where
  | generative
  | fallback
deriving DecidableEq

/-- The single photo reply of the server.mjs handler, with its caption,
its provenance, and the blend attempt events that preceded it. -/
structure Delivered where
  image : SImg
  caption : Caption
  provenance : Provenance
  blendEvents : List BlendEv
deriving DecidableEq

/-- What the server.mjs handler sends back: the photo reply, the
could-not-read edit for a missing fileId, or the generic error reply of
the catch block. -/
inductive SReply where
  | photo (d : Delivered)
  | cantRead
  | failure
deriving DecidableEq

/-- The caption of the delivered photo, when one was delivered. -/
def SReply.deliveredCaption : SReply → Option Caption
  | SReply.photo d => some d.caption
  | _ => none

/-- The provenance of the delivered photo, when one was delivered. -/
def SReply.deliveredProvenance : SReply → Option Provenance
  | SReply.photo d => some d.provenance
  | _ => none

/-- The draft upscaled to full output size, server.mjs line 245. -/
def serverDraftFull (cfg : SCfg) (meta : SImg → ℤ × ℤ) (rngSmall : ℕ → ℚ)
    (uAI lg : SImg) : SImg :=
  SImg.resizeSq (placeMascotDraft meta uAI lg cfg.aiInSize rngSmall).composited cfg.size

/-- Scaling of the placement rect to the full output size, server.mjs
lines 248 to 254: each field is Math.round(v * SIZE / AI_IN_SIZE). -/
def scaleRect (rect : Rect) (scale : ℚ) : Rect :=
  ⟨jsRound ((rect.left : ℚ) * scale), jsRound ((rect.top : ℚ) * scale),
   jsRound ((rect.w : ℚ) * scale), jsRound ((rect.h : ℚ) * scale)⟩

/-- The inpainting mask built for the provider, server.mjs line 255:
makeRectMask at full size over the scaled rect with 18 pixels padding. -/
def serverMask (cfg : SCfg) (meta : SImg → ℤ × ℤ) (rngSmall : ℕ → ℚ)
    (uAI lg : SImg) : MaskSpec :=
  makeRectMask cfg.size cfg.size
    (scaleRect (placeMascotDraft meta uAI lg cfg.aiInSize rngSmall).rect
      ((cfg.size : ℚ) / (cfg.aiInSize : ℚ))) 18

/-- Steps 2 to 4 of the server.mjs handler (lines 239 to 280) once all
inputs decoded: draft at AI size, optional blend attempts, then either
the provider image or a fresh full resolution composite, with the
caption of line 279 that depends only on the configuration. -/
def serverCore (cfg : SCfg) (meta : SImg → ℤ × ℤ) (rngSmall rngFull : ℕ → ℚ)
    (uAI uOut lg : SImg) (resp1 resp2 : ProviderResp) (t1 t2 : Bool) : Delivered :=
  match serverAttempts cfg.useOpenai (serverDraftFull cfg meta rngSmall uAI lg)
      (serverMask cfg meta rngSmall uAI lg) resp1 resp2 t1 t2 cfg.size with
  | (some img, evs) => ⟨img, captionOf cfg.useOpenai, Provenance.generative, evs⟩
  | (none, evs) =>
      ⟨(placeMascotDraft meta uOut lg cfg.size rngFull).composited,
       captionOf cfg.useOpenai, Provenance.fallback, evs⟩

/-- The message:photo handler of server.mjs lines 216 to 288.  A missing
fileId produces the could-not-read edit; a failure of the download, of
either normalization, or of the mascot cache read throws into the catch
block, which sends the generic error reply; otherwise serverCore always
produces a photo. -/
def serverHandler (cfg : SCfg) (env : SEnv) : SReply :=
  match env.fileId with
  | none => SReply.cantRead
  | some _ =>
    match env.original, env.normAI, env.normOut, env.logo with
    | Except.ok _, Except.ok uAI, Except.ok uOut, Except.ok lg =>
        SReply.photo (serverCore cfg env.meta env.rngSmall env.rngFull uAI uOut lg
          env.resp1 env.resp2 env.timeout1 env.timeout2)
    | _, _, _, _ => SReply.failure

/-- Sequential model of getLogoBuffer, server.mjs lines 57 to 67, one
call at a time: given the cache before the call and the outcome the
fetch would have, it returns the cache after the call, the returned or
thrown value, and whether a fetch was performed.  On a throw the
assignment to LOGO_BUF_CACHE never runs, so the cache is unchanged. -/
def getLogoBuffer (cache : Option ℕ) (fetchResult : Except Unit ℕ) :
    Option ℕ × Except Unit ℕ × Bool :=
  match cache with
  | some b => (some b, Except.ok b, false)
  | none =>
    match fetchResult with
    | Except.error e => (none, Except.error e, true)
    | Except.ok v => (some v, Except.ok v, true)

/-- A sequence of getLogoBuffer calls threading the cache, recording for
each call its returned or thrown value and whether it fetched. -/
def callSeq (cache : Option ℕ) : List (Except Unit ℕ) → List (Except Unit ℕ × Bool)
  | [] => []
  | r :: rs =>
      ((getLogoBuffer cache r).2.1, (getLogoBuffer cache r).2.2) ::
        callSeq (getLogoBuffer cache r).1 rs

namespace LogoCache

/-- Program counter of one getLogoBuffer execution, at the granularity of
its suspension points: the cache check (line 59), the awaited fetch, the
assignment to LOGO_BUF_CACHE, and the final read of LOGO_BUF_CACHE for
the return (line 66). -/
inductive PC where
  | check
  | fetch
  | assign
  | ret
  | done
deriving DecidableEq

/-- One in flight getLogoBuffer call: its program counter, the buffer its
own fetch produced, and its eventual return value (some r once done;
r itself is the Option read back from the cache). -/
structure Thread where
  pc : PC
  buf : Option ℕ
  result : Option (Option ℕ)
deriving DecidableEq

/-- A fresh call, about to test the cache. -/
def initThread : Thread := ⟨PC.check, none, none⟩

/-- Two concurrent first time callers sharing the module level
LOGO_BUF_CACHE, plus a count of fetches issued. -/
structure Sys where
  cache : Option ℕ
  fetches : ℕ
  t1 : Thread
  t2 : Thread
deriving DecidableEq

/-- Unpopulated cache, both callers at the cache check. -/
def initSys : Sys := ⟨none, 0, initThread, initThread⟩

/-- One atomic step of one caller against the shared cache.  fetchVal is
the buffer this caller's fetch would produce. -/
def stepThread (fetchVal : ℕ) (cache : Option ℕ) (fetches : ℕ) (t : Thread) :
    Option ℕ × ℕ × Thread :=
  match t.pc with
  | PC.check =>
    match cache with
    | some v => (cache, fetches, { t with pc := PC.done, result := some (some v) })
    | none => (cache, fetches, { t with pc := PC.fetch })
  | PC.fetch => (cache, fetches + 1, { t with pc := PC.assign, buf := some fetchVal })
  | PC.assign => (t.buf, fetches, { t with pc := PC.ret })
  | PC.ret => (cache, fetches, { t with pc := PC.done, result := some cache })
  | PC.done => (cache, fetches, t)

/-- Scheduler step: second chooses which caller runs. -/
def step (f1 f2 : ℕ) (s : Sys) (second : Bool) : Sys :=
  if second then
    let r := stepThread f2 s.cache s.fetches s.t2
    { cache := r.1, fetches := r.2.1, t1 := s.t1, t2 := r.2.2 }
  else
    let r := stepThread f1 s.cache s.fetches s.t1
    { cache := r.1, fetches := r.2.1, t1 := r.2.2, t2 := s.t2 }

/-- Run an arbitrary interleaving of the two callers. -/
def run (f1 f2 : ℕ) (sched : List Bool) (s : Sys) : Sys :=
  sched.foldl (step f1 f2) s

/-- Invariant of one caller against the shared cache: past the fetch its
local buffer is populated; at the return read the cache is populated;
a finished caller returned a fully populated buffer. -/
def ThreadInv (cache : Option ℕ) (t : Thread) : Prop :=
  (t.pc = PC.assign → t.buf.isSome = true) ∧
  (t.pc = PC.ret → cache.isSome = true) ∧
  (t.pc = PC.done → ∃ b, t.result = some (some b))

/-- Joint invariant of the two callers. -/
def Inv (s : Sys) : Prop := ThreadInv s.cache s.t1 ∧ ThreadInv s.cache s.t2

/-- The duplicate fetch interleaving: both callers pass the cache check
before either fetches. -/
def raceSched : List Bool :=
  [false, true, false, false, false, true, true, true]

end LogoCache

/-- A metadata oracle describing a square mascot: every intermediate
decodes to 100 by 100. -/
def metaSquare : SImg → ℤ × ℤ := fun _ => (100, 100)

/-- A metadata oracle describing an extremely tall mascot asset: resized
to width 128 its height is 12800 (aspect 1 to 100), and rotation keeps
those bounding box dims (the angle used with it below is 0). -/
def metaTall : SImg → ℤ × ℤ := fun i =>
  match i with
  | SImg.resizeW _ w => (w, 12800)
  | SImg.rotate _ _ => (128, 12800)
  | _ => (640, 640)

/-- The all zeros Math.random stream. -/
def rngZero : ℕ → ℚ := fun _ => 0

/-- A stream agreeing with rngZero on the three consumed samples but
differing later. -/
def rngMatch : ℕ → ℚ := fun n => if n ≤ 2 then 0 else 1

/-- A stream whose anchor sample selects the top right corner. -/
def rngAnchor2 : ℕ → ℚ := fun n => if n = 1 then 1/2 else 0

/-- The stream of the C4 counterexample: sticker width sample 0 (exactly
20 percent), anchor sample 1/4 (bottom left), rotation sample 1/2
(exactly 0 degrees). -/
def rngCex : ℕ → ℚ := fun n => if n = 1 then 1/4 else if n = 2 then 1/2 else 0

/-- server.mjs configuration with the OpenAI provider enabled and the
default sizes SIZE = 1024, AI_IN_SIZE = 640. -/
def cfgOn : SCfg := ⟨true, 1024, 640⟩

/-- A request whose inputs all decode but whose two provider responses
both come back without an image payload. -/
def envBothFail : SEnv :=
  { fileId := some 1
    original := Except.ok (SImg.raw 0)
    normAI := Except.ok (SImg.raw 1)
    normOut := Except.ok (SImg.raw 2)
    logo := Except.ok (SImg.raw 3)
    resp1 := ProviderResp.payload none
    resp2 := ProviderResp.payload none
    timeout1 := false
    timeout2 := false
    meta := metaSquare
    rngSmall := rngZero
    rngFull := rngZero }

/-- A part_003 request whose inputs all decode but whose Gemini fetch
rejects with a network error. -/
def gEnvNet : GeminiEnv :=
  ⟨some 1, Except.ok (SImg.raw 0), Except.ok (SImg.raw 1), Except.ok (SImg.raw 2),
   GeminiResp.netError⟩

/-- A part_003 request whose inputs all decode and whose Gemini response
is well formed JSON without an image part. -/
def gEnvNoImg : GeminiEnv :=
  ⟨some 1, Except.ok (SImg.raw 0), Except.ok (SImg.raw 1), Except.ok (SImg.raw 2),
   GeminiResp.body (some none)⟩

/-- A small concrete raster image for the normalizer witness. -/
def testImg : PImg := ⟨5, 3, fun x y => x * 10 + y⟩

/-- An orientation upright input built from testImg. -/
def rawTest : RawImg := ⟨testImg, false⟩

/-- A decodable 4000 by 3000 photo carrying a 90 degree EXIF orientation
tag: its corrected raster is 3000 by 4000, while metadata still reports
4000 by 3000. -/
def orientedPhoto : RawImg := ⟨⟨4000, 3000, fun x y => x + y⟩, true⟩

/-- A concrete mask for the C8 witness. -/
def maskW : MaskSpec := makeRectMask 1024 1024 ⟨0, 0, 10, 10⟩ 18

/-- Math.round of a nonnegative value is nonnegative. -/
theorem jsRound_nonneg (q : ℚ) (h : 0 ≤ q) : 0 ≤ jsRound q := by
  have h2 : (0 : ℚ) ≤ q + 1/2 := by linarith
  exact Int.le_floor.mpr (by exact_mod_cast h2)

/-- Claim C6 (corrected): counterexample to the claim as stated.  A
decodable 4000 by 3000 photo with a 90 degree EXIF orientation tag does
not yield an N by N image at all: the crop origin left = 500 and side =
3000 are computed from the pre-orientation metadata dimensions, but the
extract runs on the orientation corrected 3000 wide raster, so
extract_area throws (500 + 3000 > 3000) and normalizeToSquare errors
instead of producing a result. -/
theorem C6_counterexample :
    1 ≤ orientedPhoto.stored.width ∧ 1 ≤ orientedPhoto.stored.height ∧
    orientedPhoto.orientSwap = true ∧
    normalizeToSquare orientedPhoto 1024 = Except.error () :=
  ⟨by decide, by decide, rfl, rfl⟩

/-- Claim C6 (corrected, amended): for every decodable input whose EXIF
orientation does not swap the axes (so the metadata dimensions are the
dimensions of the raster being cropped), normalizeToSquare succeeds,
crops the centered square of side min(width, height) with origin
left = floor((width - side)/2), top = floor((height - side)/2), resizes
it, and the result is exactly N by N pixels; the crop never leaves the
raster.  For orientation swapped inputs of distinct width and height the
crop origin overruns the corrected raster and the call throws (see the
counterexample). -/
theorem C6_normalize_square (img : RawImg) (N : ℕ)
    (hw : 1 ≤ img.stored.width) (hh : 1 ≤ img.stored.height)
    (hor : img.orientSwap = false) : normalizeSpec img N := by
  have hw0 : ¬ img.stored.width = 0 := by omega
  have hh0 : ¬ img.stored.height = 0 := by omega
  have hoc : orientCorrect img = img.stored := by simp [orientCorrect, hor]
  have hb1 : (img.stored.width - min img.stored.width img.stored.height) / 2 +
      min img.stored.width img.stored.height ≤ img.stored.width := by
    rcases Nat.le_total img.stored.width img.stored.height with h | h
    · rw [min_eq_left h]; omega
    · rw [min_eq_right h]; omega
  have hb2 : (img.stored.height - min img.stored.width img.stored.height) / 2 +
      min img.stored.width img.stored.height ≤ img.stored.height := by
    rcases Nat.le_total img.stored.width img.stored.height with h | h
    · rw [min_eq_left h]; omega
    · rw [min_eq_right h]; omega
  have heval : normalizeToSquare img N =
      Except.ok (resizePx N N
        (extract ((img.stored.width - min img.stored.width img.stored.height) / 2)
          ((img.stored.height - min img.stored.width img.stored.height) / 2)
          (min img.stored.width img.stored.height)
          (min img.stored.width img.stored.height) (orientCorrect img))) := by
    simp only [normalizeToSquare, sharpMetaDims, hw0, hh0, if_false]
    rw [hoc]
    unfold extractChecked
    rw [if_pos ⟨hb1, hb2⟩]
  refine ⟨heval, ?_, ?_, ?_, fun x y => rfl⟩
  · intro out hout
    rw [heval] at hout
    obtain h := Except.ok.inj hout
    rw [← h]
    exact ⟨rfl, rfl⟩
  · rw [hoc]; exact hb1
  · rw [hoc]; exact hb2

/-- Witness for the amended C6 at a concrete upright 5 by 3 image and
N = 4. -/
theorem C6_witness :
    1 ≤ rawTest.stored.width ∧ 1 ≤ rawTest.stored.height ∧
    rawTest.orientSwap = false ∧ normalizeSpec rawTest 4 :=
  ⟨by decide, by decide, rfl, C6_normalize_square rawTest 4 (by decide) (by decide) rfl⟩

/-- Claim C5 (corrected): counterexample to the claim as stated.  The
placement rect (75, 10, 20, 20) lies inside the 100 by 100 canvas and
the padding 10 is nonnegative, yet the hole of makeRectMask extends 5
pixels past the right edge of the canvas: the code clamps the hole only
on the left and top sides, never on the right or bottom. -/
theorem C5_counterexample :
    (0 : ℤ) ≤ 10 ∧ (0 : ℤ) ≤ 75 ∧ (0 : ℤ) ≤ 10 ∧
    (75 : ℤ) + 20 ≤ 100 ∧ (10 : ℤ) + 20 ≤ 100 ∧
    (makeRectMask 100 100 ⟨75, 10, 20, 20⟩ 10).holeLeft +
      (makeRectMask 100 100 ⟨75, 10, 20, 20⟩ 10).holeW > 100 := by
  decide

/-- Claim C5 (corrected, amended): the hole has size max(1, w + 2 padPx)
by max(1, h + 2 padPx) (hence exactly (w + 2 padPx) by (h + 2 padPx)
when the rect is nondegenerate), positioned at (rect.left - padPx,
rect.top - padPx) clamped at zero on the left and top only; it stays
inside the canvas horizontally exactly when both rect.left + rect.w +
padPx <= W and rect.w + 2 padPx <= W hold, and vertically exactly when
both rect.top + rect.h + padPx <= H and rect.h + 2 padPx <= H hold (the
second conjunct matters because the left and top clamping shifts an
overhanging hole inward without shrinking it); in particular the hole
can extend past the right or bottom edge. -/
theorem C5_mask_hole_spec (W H : ℤ) (rect : Rect) (padPx : ℤ)
    (hp : 0 ≤ padPx) (hw : 1 ≤ rect.w) (hh : 1 ≤ rect.h) :
    (makeRectMask W H rect padPx).holeLeft = max 0 (rect.left - padPx) ∧
    (makeRectMask W H rect padPx).holeTop = max 0 (rect.top - padPx) ∧
    (makeRectMask W H rect padPx).holeW = rect.w + padPx * 2 ∧
    (makeRectMask W H rect padPx).holeH = rect.h + padPx * 2 ∧
    0 ≤ (makeRectMask W H rect padPx).holeLeft ∧
    0 ≤ (makeRectMask W H rect padPx).holeTop ∧
    ((makeRectMask W H rect padPx).holeLeft + (makeRectMask W H rect padPx).holeW ≤ W ↔
      rect.left + rect.w + padPx ≤ W ∧ rect.w + padPx * 2 ≤ W) ∧
    ((makeRectMask W H rect padPx).holeTop + (makeRectMask W H rect padPx).holeH ≤ H ↔
      rect.top + rect.h + padPx ≤ H ∧ rect.h + padPx * 2 ≤ H) := by
  have hW : max 1 (rect.w + padPx * 2) = rect.w + padPx * 2 := max_eq_right (by omega)
  have hH : max 1 (rect.h + padPx * 2) = rect.h + padPx * 2 := max_eq_right (by omega)
  simp only [makeRectMask]
  refine ⟨trivial, trivial, hW, hH, le_max_left 0 _, le_max_left 0 _, ?_, ?_⟩
  · rw [hW]
    rcases le_total (rect.left - padPx) 0 with h | h
    · rw [max_eq_left h]
      constructor
      · intro h2; omega
      · intro h2; omega
    · rw [max_eq_right h]
      constructor
      · intro h2; omega
      · intro h2; omega
  · rw [hH]
    rcases le_total (rect.top - padPx) 0 with h | h
    · rw [max_eq_left h]
      constructor
      · intro h2; omega
      · intro h2; omega
    · rw [max_eq_right h]
      constructor
      · intro h2; omega
      · intro h2; omega

/-- Witness for the amended C5 at a concrete rect with padding 10. -/
theorem C5_witness :
    ((0 : ℤ) ≤ 10 ∧ (1 : ℤ) ≤ 20 ∧ (1 : ℤ) ≤ 20) ∧
    ((makeRectMask 200 200 ⟨75, 10, 20, 20⟩ 10).holeLeft = max 0 (75 - 10) ∧
     (makeRectMask 200 200 ⟨75, 10, 20, 20⟩ 10).holeTop = max 0 (10 - 10) ∧
     (makeRectMask 200 200 ⟨75, 10, 20, 20⟩ 10).holeW = 20 + 10 * 2 ∧
     (makeRectMask 200 200 ⟨75, 10, 20, 20⟩ 10).holeH = 20 + 10 * 2 ∧
     0 ≤ (makeRectMask 200 200 ⟨75, 10, 20, 20⟩ 10).holeLeft ∧
     0 ≤ (makeRectMask 200 200 ⟨75, 10, 20, 20⟩ 10).holeTop ∧
     ((makeRectMask 200 200 ⟨75, 10, 20, 20⟩ 10).holeLeft +
         (makeRectMask 200 200 ⟨75, 10, 20, 20⟩ 10).holeW ≤ 200 ↔
       75 + 20 + 10 ≤ (200 : ℤ) ∧ 20 + 10 * 2 ≤ (200 : ℤ)) ∧
     ((makeRectMask 200 200 ⟨75, 10, 20, 20⟩ 10).holeTop +
         (makeRectMask 200 200 ⟨75, 10, 20, 20⟩ 10).holeH ≤ 200 ↔
       10 + 20 + 10 ≤ (200 : ℤ) ∧ 20 + 10 * 2 ≤ (200 : ℤ))) :=
  ⟨⟨by decide, by decide, by decide⟩,
   C5_mask_hole_spec 200 200 ⟨75, 10, 20, 20⟩ 10 (by decide) (by decide) (by decide)⟩

/-- Claim C10 (confirmed): a failed getLogoBuffer call leaves the cache
unpopulated (the throw happens before the assignment), so the next call
attempts the fetch again; a successful call populates the cache, and
with a populated cache every subsequent call returns that exact buffer
and performs no fetch, for the rest of the trace. -/
theorem C10_cache_retry_and_stability :
    ((getLogoBuffer none (Except.error ())).1 = none ∧
     (getLogoBuffer none (Except.error ())).2.2 = true) ∧
    (∀ rs : List (Except Unit ℕ),
      callSeq none (Except.error () :: rs) =
        (Except.error (), true) :: callSeq none rs) ∧
    (∀ v : ℕ, getLogoBuffer none (Except.ok v) = (some v, Except.ok v, true)) ∧
    (∀ (b : ℕ) (rs : List (Except Unit ℕ)),
      callSeq (some b) rs = rs.map fun _ => (Except.ok b, false)) := by
  refine ⟨⟨rfl, rfl⟩, fun rs => rfl, fun v => rfl, fun b rs => ?_⟩
  induction rs with
  | nil => rfl
  | cons r rs ih => simpa [callSeq, getLogoBuffer] using ih

/-- The placement rect of a draft, spelled out: anchor position from the
pre rotation dims, size from the post rotation dims. -/
theorem placeMascotDraft_rect (meta : SImg → ℤ × ℤ) (u l : SImg) (size : ℤ)
    (rng : ℕ → ℚ) :
    (placeMascotDraft meta u l size rng).rect =
      ⟨(pickAnchor size size (meta (draftLogo l size (rng 0))).1
          (meta (draftLogo l size (rng 0))).2 (draftPad size) (rng 1)).left,
       (pickAnchor size size (meta (draftLogo l size (rng 0))).1
          (meta (draftLogo l size (rng 0))).2 (draftPad size) (rng 1)).top,
       (meta (draftRotated l size (rng 0) (rng 2))).1,
       (meta (draftRotated l size (rng 0) (rng 2))).2⟩ := rfl

/-- The corner pad at the AI canvas size: Math.round(640 * 0.035) = 22. -/
theorem draftPad_640 : draftPad 640 = 22 := by
  norm_num [draftPad, jsRound]

/-- Anchor sample 0 selects the bottom right corner. -/
theorem pickAnchor_sample0 (W H sw sh pad : ℤ) :
    pickAnchor W H sw sh pad 0 = ⟨W - sw - pad, H - sh - pad⟩ := by
  have h : (⌊(0 : ℚ) * 4⌋).toNat = 0 := by norm_num
  simp only [pickAnchor, h]
  rfl

/-- Anchor sample 1/4 selects the bottom left corner. -/
theorem pickAnchor_sampleQuarter (W H sw sh pad : ℤ) :
    pickAnchor W H sw sh pad (1/4) = ⟨pad, H - sh - pad⟩ := by
  have h : (⌊(1/4 : ℚ) * 4⌋).toNat = 1 := by norm_num
  simp only [pickAnchor, h]
  rfl

/-- Anchor sample 1/2 selects the top right corner. -/
theorem pickAnchor_sampleHalf (W H sw sh pad : ℤ) :
    pickAnchor W H sw sh pad (1/2) = ⟨W - sw - pad, pad⟩ := by
  have h0 : ⌊(1/2 : ℚ) * 4⌋ = 2 := by norm_num
  have h : (⌊(1/2 : ℚ) * 4⌋).toNat = 2 := by rw [h0]; rfl
  simp only [pickAnchor, h]
  rfl

/-- Claim C3 (corrected): counterexample to the claim as stated.  The
planner draws from the ambient global Math.random, which is not
injectable or seedable, so two runs of the draft compositing pipeline on
identical image inputs, identical canvas size and the same sharp
metadata are at the mercy of the ambient samples and need not agree:
with the samples these two runs actually observe, the two
DraftComposites differ (different corner anchor). -/
theorem C3_counterexample :
    placeMascotDraft metaSquare (SImg.raw 0) (SImg.raw 1) 640 rngZero ≠
    placeMascotDraft metaSquare (SImg.raw 0) (SImg.raw 1) 640 rngAnchor2 := by
  intro h
  have h1 : (placeMascotDraft metaSquare (SImg.raw 0) (SImg.raw 1) 640 rngZero).rect.top
      = 518 := by
    simp only [placeMascotDraft_rect, metaSquare, rngZero, draftPad_640, pickAnchor_sample0]
    norm_num
  have h2 : (placeMascotDraft metaSquare (SImg.raw 0) (SImg.raw 1) 640 rngAnchor2).rect.top
      = 22 := by
    simp only [placeMascotDraft_rect, metaSquare, rngAnchor2, draftPad_640]
    norm_num [pickAnchor_sampleHalf]
  rw [h, h2] at h1
  exact absurd h1 (by decide)

/-- Claim C3 (corrected, amended): modelling the ambient Math.random
explicitly as a sample stream, the pipeline is deterministic in its
inputs and in the three samples it consumes (sticker width, anchor,
rotation): two runs with identical inputs and identical samples produce
identical DraftComposites. -/
theorem C3_determinism_with_fixed_samples (meta : SImg → ℤ × ℤ) (u l : SImg)
    (size : ℤ) (rng1 rng2 : ℕ → ℚ)
    (h0 : rng1 0 = rng2 0) (h1 : rng1 1 = rng2 1) (h2 : rng1 2 = rng2 2) :
    placeMascotDraft meta u l size rng1 = placeMascotDraft meta u l size rng2 := by
  simp only [placeMascotDraft, h0, h1, h2]

/-- Witness for the amended C3: two streams that agree on the three
consumed samples but differ from sample 3 on give identical drafts. -/
theorem C3_witness :
    rngZero 0 = rngMatch 0 ∧ rngZero 1 = rngMatch 1 ∧ rngZero 2 = rngMatch 2 ∧
    rngZero 3 ≠ rngMatch 3 ∧
    placeMascotDraft metaSquare (SImg.raw 0) (SImg.raw 1) 640 rngZero =
      placeMascotDraft metaSquare (SImg.raw 0) (SImg.raw 1) 640 rngMatch :=
  ⟨by decide, by decide, by decide, by decide,
   C3_determinism_with_fixed_samples metaSquare (SImg.raw 0) (SImg.raw 1) 640
     rngZero rngMatch (by decide) (by decide) (by decide)⟩

/-- The anchor returned by pickAnchor is always one of the four corner
candidates (for an out of range index the getD default is itself the
first candidate). -/
theorem pickAnchor_mem (W H sw sh pad : ℤ) (r : ℚ) :
    pickAnchor W H sw sh pad r ∈ anchorList W H sw sh pad := by
  unfold pickAnchor
  rcases (⌊r * 4⌋).toNat with _ | _ | _ | _ | n <;> simp [anchorList, List.getD]

/-- Claim C4 (corrected): counterexample to the claim as stated.  With
the canvas 640 by 640, a sticker width of exactly 20 percent (sample 0),
a rotation of exactly 0 degrees (sample 1/2, inside [-5, 5]), and the
bottom left corner anchor (sample 1/4), a mascot asset of aspect ratio
1 to 100 produces a placement rect whose top coordinate is negative:
the anchor formula H - stickerH - pad goes negative as soon as the
resized mascot is taller than the padded canvas, so the claimed
invariant 0 <= top fails. -/
theorem C4_counterexample :
    (0 ≤ rngCex 0 ∧ rngCex 0 < 1) ∧ (0 ≤ rngCex 1 ∧ rngCex 1 < 1) ∧
    (0 ≤ rngCex 2 ∧ rngCex 2 < 1) ∧
    draftRotateDeg (rngCex 2) = 0 ∧
    draftStickerW 640 (rngCex 0) = 128 ∧
    (placeMascotDraft metaTall (SImg.raw 0) (SImg.raw 1) 640 rngCex).rect.top < 0 := by
  refine ⟨⟨by norm_num [rngCex], by norm_num [rngCex]⟩,
    ⟨by norm_num [rngCex], by norm_num [rngCex]⟩,
    ⟨by norm_num [rngCex], by norm_num [rngCex]⟩,
    by norm_num [draftRotateDeg, rngCex],
    by norm_num [draftStickerW, jsRound, rngCex], ?_⟩
  have hq : rngCex 1 = 1/4 := rfl
  have hmt : metaTall (draftLogo (SImg.raw 1) 640 (rngCex 0)) =
      (draftStickerW 640 (rngCex 0), 12800) := rfl
  simp only [placeMascotDraft_rect, hmt, draftPad_640, hq, pickAnchor_sampleQuarter]
  norm_num

/-- Claim C4 (corrected, amended): for every square canvas and every
planner output, the post rotation placement rect satisfies 0 <= left,
0 <= top, left + w <= W and top + h <= H, provided the resized mascot
fits in the padded canvas (lw + pad <= W, lh + pad <= H) and the post
rotation bounding box exceeds the pre rotation one by at most the corner
pad on each axis and fits the canvas with the pad margin.  These side
conditions hold for near square mascots and small rotations, and the
counterexample shows the claim fails without them. -/
theorem C4_rect_within_canvas (meta : SImg → ℤ × ℤ) (u l : SImg) (size : ℤ)
    (rng : ℕ → ℚ) (hsz : 0 ≤ size)
    (hr0 : 0 ≤ rng 1) (hr1 : rng 1 < 1)
    (hlw : (meta (draftLogo l size (rng 0))).1 + draftPad size ≤ size)
    (hlh : (meta (draftLogo l size (rng 0))).2 + draftPad size ≤ size)
    (hrw : (meta (draftRotated l size (rng 0) (rng 2))).1 ≤
      (meta (draftLogo l size (rng 0))).1 + draftPad size)
    (hrh : (meta (draftRotated l size (rng 0) (rng 2))).2 ≤
      (meta (draftLogo l size (rng 0))).2 + draftPad size)
    (hrw2 : draftPad size + (meta (draftRotated l size (rng 0) (rng 2))).1 ≤ size)
    (hrh2 : draftPad size + (meta (draftRotated l size (rng 0) (rng 2))).2 ≤ size) :
    0 ≤ (placeMascotDraft meta u l size rng).rect.left ∧
    0 ≤ (placeMascotDraft meta u l size rng).rect.top ∧
    (placeMascotDraft meta u l size rng).rect.left +
      (placeMascotDraft meta u l size rng).rect.w ≤ size ∧
    (placeMascotDraft meta u l size rng).rect.top +
      (placeMascotDraft meta u l size rng).rect.h ≤ size := by
  have hpad : 0 ≤ draftPad size :=
    jsRound_nonneg _ (mul_nonneg (by exact_mod_cast hsz) (by norm_num))
  have hmem := pickAnchor_mem size size (meta (draftLogo l size (rng 0))).1
    (meta (draftLogo l size (rng 0))).2 (draftPad size) (rng 1)
  rw [placeMascotDraft_rect]
  simp only [anchorList, List.mem_cons, List.not_mem_nil, or_false] at hmem
  rcases hmem with hA | hA | hA | hA <;> rw [hA] <;> dsimp only <;>
    exact ⟨by omega, by omega, by omega, by omega⟩

/-- Witness for the amended C4 at a square mascot, canvas 640, and the
all zeros sample stream. -/
theorem C4_witness :
    ((0 : ℤ) ≤ 640 ∧ 0 ≤ rngZero 1 ∧ rngZero 1 < 1 ∧
     (metaSquare (draftLogo (SImg.raw 1) 640 (rngZero 0))).1 + draftPad 640 ≤ 640 ∧
     (metaSquare (draftLogo (SImg.raw 1) 640 (rngZero 0))).2 + draftPad 640 ≤ 640 ∧
     (metaSquare (draftRotated (SImg.raw 1) 640 (rngZero 0) (rngZero 2))).1 ≤
       (metaSquare (draftLogo (SImg.raw 1) 640 (rngZero 0))).1 + draftPad 640 ∧
     (metaSquare (draftRotated (SImg.raw 1) 640 (rngZero 0) (rngZero 2))).2 ≤
       (metaSquare (draftLogo (SImg.raw 1) 640 (rngZero 0))).2 + draftPad 640 ∧
     draftPad 640 + (metaSquare (draftRotated (SImg.raw 1) 640 (rngZero 0) (rngZero 2))).1 ≤ 640 ∧
     draftPad 640 + (metaSquare (draftRotated (SImg.raw 1) 640 (rngZero 0) (rngZero 2))).2 ≤ 640) ∧
    (0 ≤ (placeMascotDraft metaSquare (SImg.raw 0) (SImg.raw 1) 640 rngZero).rect.left ∧
     0 ≤ (placeMascotDraft metaSquare (SImg.raw 0) (SImg.raw 1) 640 rngZero).rect.top ∧
     (placeMascotDraft metaSquare (SImg.raw 0) (SImg.raw 1) 640 rngZero).rect.left +
       (placeMascotDraft metaSquare (SImg.raw 0) (SImg.raw 1) 640 rngZero).rect.w ≤ 640 ∧
     (placeMascotDraft metaSquare (SImg.raw 0) (SImg.raw 1) 640 rngZero).rect.top +
       (placeMascotDraft metaSquare (SImg.raw 0) (SImg.raw 1) 640 rngZero).rect.h ≤ 640) := by
  have e1 : (0 : ℤ) ≤ 640 := by decide
  have e2 : 0 ≤ rngZero 1 := by norm_num [rngZero]
  have e3 : rngZero 1 < 1 := by norm_num [rngZero]
  have e4 : (metaSquare (draftLogo (SImg.raw 1) 640 (rngZero 0))).1 + draftPad 640 ≤ 640 := by
    norm_num [metaSquare, draftPad_640]
  have e5 : (metaSquare (draftLogo (SImg.raw 1) 640 (rngZero 0))).2 + draftPad 640 ≤ 640 := by
    norm_num [metaSquare, draftPad_640]
  have e6 : (metaSquare (draftRotated (SImg.raw 1) 640 (rngZero 0) (rngZero 2))).1 ≤
      (metaSquare (draftLogo (SImg.raw 1) 640 (rngZero 0))).1 + draftPad 640 := by
    norm_num [metaSquare, draftPad_640]
  have e7 : (metaSquare (draftRotated (SImg.raw 1) 640 (rngZero 0) (rngZero 2))).2 ≤
      (metaSquare (draftLogo (SImg.raw 1) 640 (rngZero 0))).2 + draftPad 640 := by
    norm_num [metaSquare, draftPad_640]
  have e8 : draftPad 640 +
      (metaSquare (draftRotated (SImg.raw 1) 640 (rngZero 0) (rngZero 2))).1 ≤ 640 := by
    norm_num [metaSquare, draftPad_640]
  have e9 : draftPad 640 +
      (metaSquare (draftRotated (SImg.raw 1) 640 (rngZero 0) (rngZero 2))).2 ≤ 640 := by
    norm_num [metaSquare, draftPad_640]
  exact ⟨⟨e1, e2, e3, e4, e5, e6, e7, e8, e9⟩,
    C4_rect_within_canvas metaSquare (SImg.raw 0) (SImg.raw 1) 640 rngZero
      e1 e2 e3 e4 e5 e6 e7 e8 e9⟩

/-- Claim C8 (confirmed): per request at most two blend attempts are
made and they are strictly sequential.  With the provider disabled there
is none.  Otherwise attempt 1 always starts; if its race yields an image
the result is that image and the event trace stops there, so attempt 2
never runs; only when the race yields nothing (timeout or absent result)
do the backoff and attempt 2 follow, in exactly that order. -/
theorem C8_attempt_policy (uo : Bool) (draft : SImg) (mask : MaskSpec)
    (r1 r2 : ProviderResp) (t1 t2 : Bool) (size : ℤ) :
    (uo = false → serverAttempts uo draft mask r1 r2 t1 t2 size = (none, [])) ∧
    (uo = true → ∀ img : SImg,
      (if t1 then none else openaiBlendMascot uo draft mask r1 size) = some img →
      serverAttempts uo draft mask r1 r2 t1 t2 size =
        (some img, [BlendEv.attemptStart 1])) ∧
    (uo = true →
      (if t1 then none else openaiBlendMascot uo draft mask r1 size) = none →
      serverAttempts uo draft mask r1 r2 t1 t2 size =
        ((if t2 then none else openaiBlendMascot uo draft mask r2 size),
         [BlendEv.attemptStart 1, BlendEv.backoffWait, BlendEv.attemptStart 2])) := by
  refine ⟨?_, ?_, ?_⟩
  · intro h; subst h; simp [serverAttempts]
  · intro h img himg; subst h; simp [serverAttempts, himg]
  · intro h hnone; subst h; simp [serverAttempts, hnone]

/-- Witness for C8: a successful first attempt short circuits. -/
theorem C8_witness :
    serverAttempts true (SImg.raw 0) maskW (ProviderResp.payload (some (SImg.raw 7)))
        (ProviderResp.payload none) false false 1024 =
      (some (SImg.resizeSq (SImg.raw 7) 1024), [BlendEv.attemptStart 1]) :=
  (C8_attempt_policy true (SImg.raw 0) maskW (ProviderResp.payload (some (SImg.raw 7)))
      (ProviderResp.payload none) false false 1024).2.1 rfl
    (SImg.resizeSq (SImg.raw 7) 1024) rfl

/-- Claim C1 (confirmed): for every request whose download,
normalizations and mascot fetch succeed, the handler replies with a
photo (never an absent image), and whenever the two blend attempts yield
nothing the delivered image is the local compositor re-run at the full
output resolution, tagged as the fallback. -/
theorem C1_orchestrator_delivers_image (cfg : SCfg) (env : SEnv) (fid : ℕ)
    (o uAI uOut lg : SImg)
    (h0 : env.fileId = some fid) (h1 : env.original = Except.ok o)
    (h2 : env.normAI = Except.ok uAI) (h3 : env.normOut = Except.ok uOut)
    (h4 : env.logo = Except.ok lg) :
    ∃ d : Delivered, serverHandler cfg env = SReply.photo d ∧
      ((serverAttempts cfg.useOpenai (serverDraftFull cfg env.meta env.rngSmall uAI lg)
          (serverMask cfg env.meta env.rngSmall uAI lg) env.resp1 env.resp2
          env.timeout1 env.timeout2 cfg.size).1 = none →
        d.image = (placeMascotDraft env.meta uOut lg cfg.size env.rngFull).composited ∧
        d.provenance = Provenance.fallback) := by
  refine ⟨serverCore cfg env.meta env.rngSmall env.rngFull uAI uOut lg env.resp1 env.resp2
    env.timeout1 env.timeout2, ?_, ?_⟩
  · simp [serverHandler, h0, h1, h2, h3, h4]
  · intro hnone
    rcases hA : serverAttempts cfg.useOpenai
        (serverDraftFull cfg env.meta env.rngSmall uAI lg)
        (serverMask cfg env.meta env.rngSmall uAI lg) env.resp1 env.resp2
        env.timeout1 env.timeout2 cfg.size with ⟨aiOut, evs⟩
    rw [hA] at hnone
    simp only at hnone
    subst hnone
    constructor <;> simp [serverCore, hA]

/-- Witness for C1 at a request whose provider responses both lack an
image: the photo is still delivered. -/
theorem C1_witness :
    ∃ d : Delivered, serverHandler cfgOn envBothFail = SReply.photo d ∧
      ((serverAttempts cfgOn.useOpenai
          (serverDraftFull cfgOn envBothFail.meta envBothFail.rngSmall (SImg.raw 1)
            (SImg.raw 3))
          (serverMask cfgOn envBothFail.meta envBothFail.rngSmall (SImg.raw 1) (SImg.raw 3))
          envBothFail.resp1 envBothFail.resp2 envBothFail.timeout1 envBothFail.timeout2
          cfgOn.size).1 = none →
        d.image = (placeMascotDraft envBothFail.meta (SImg.raw 2) (SImg.raw 3) cfgOn.size
          envBothFail.rngFull).composited ∧
        d.provenance = Provenance.fallback) :=
  C1_orchestrator_delivers_image cfgOn envBothFail 1 (SImg.raw 0) (SImg.raw 1) (SImg.raw 2)
    (SImg.raw 3) rfl rfl rfl rfl rfl

/-- Claim C2 (corrected): counterexample to the claim as stated.  In the
Gemini variant a network error during the blend attempt is not absorbed:
aiInsertLogoCat has no try/catch, the rejection propagates to the
handler catch block, and the user receives the error reply instead of a
fallback image, even though download, normalization and mascot fetch all
succeeded. -/
theorem C2_counterexample :
    gEnvNet.original = Except.ok (SImg.raw 0) ∧
    gEnvNet.userNorm = Except.ok (SImg.raw 1) ∧
    gEnvNet.logoBuf = Except.ok (SImg.raw 2) ∧
    gEnvNet.aiResp = GeminiResp.netError ∧
    geminiHandler metaSquare 1024 gEnvNet = GReply.errorMsg :=
  ⟨rfl, rfl, rfl, rfl, rfl⟩

/-- Claim C2 (corrected, amended): in the OpenAI variant every provider
side failure is absorbed by the catch inside openaiBlendMascot and the
user still receives a photo; in the Gemini variant a well formed
response without an image yields the fallback photo, but a rejected
fetch or a non JSON body throws out of aiInsertLogoCat and produces the
error reply. -/
theorem C2_provider_failure_handling :
    (∀ (cfg : SCfg) (env : SEnv) (fid : ℕ) (o uAI uOut lg : SImg),
      env.fileId = some fid → env.original = Except.ok o → env.normAI = Except.ok uAI →
      env.normOut = Except.ok uOut → env.logo = Except.ok lg →
      ∃ d, serverHandler cfg env = SReply.photo d) ∧
    (∀ (meta : SImg → ℤ × ℤ) (size : ℤ) (env : GeminiEnv) (fid : ℕ) (o un lb : SImg),
      env.fileId = some fid → env.original = Except.ok o → env.userNorm = Except.ok un →
      env.logoBuf = Except.ok lb →
      (env.aiResp = GeminiResp.body (some none) →
        geminiHandler meta size env =
          GReply.photo (fallbackOverlay meta un lb size) Caption.shySticker) ∧
      ((env.aiResp = GeminiResp.netError ∨ env.aiResp = GeminiResp.body none) →
        geminiHandler meta size env = GReply.errorMsg)) := by
  constructor
  · intro cfg env fid o uAI uOut lg h0 h1 h2 h3 h4
    refine ⟨serverCore cfg env.meta env.rngSmall env.rngFull uAI uOut lg env.resp1
      env.resp2 env.timeout1 env.timeout2, ?_⟩
    simp [serverHandler, h0, h1, h2, h3, h4]
  · intro meta size env fid o un lb h0 h1 h2 h3
    constructor
    · intro hresp
      simp [geminiHandler, h0, h1, h2, h3, hresp, aiInsertLogoCat]
    · rintro (hresp | hresp) <;>
        simp [geminiHandler, h0, h1, h2, h3, hresp, aiInsertLogoCat]

/-- Witness for the amended C2: a well formed image-less Gemini response
still gets the user a fallback photo. -/
theorem C2_witness :
    geminiHandler metaSquare 1024 gEnvNoImg =
      GReply.photo (fallbackOverlay metaSquare (SImg.raw 1) (SImg.raw 2) 1024)
        Caption.shySticker :=
  ((C2_provider_failure_handling).2 metaSquare 1024 gEnvNoImg 1 (SImg.raw 0) (SImg.raw 1)
    (SImg.raw 2) rfl rfl rfl rfl).1 rfl

/-- The caption serverCore attaches is determined by the configuration
alone, whatever the attempts produced. -/
theorem serverCore_caption (cfg : SCfg) (meta : SImg → ℤ × ℤ) (rngS rngF : ℕ → ℚ)
    (uAI uOut lg : SImg) (r1 r2 : ProviderResp) (t1 t2 : Bool) :
    (serverCore cfg meta rngS rngF uAI uOut lg r1 r2 t1 t2).caption =
      captionOf cfg.useOpenai := by
  unfold serverCore
  rcases hA : serverAttempts cfg.useOpenai (serverDraftFull cfg meta rngS uAI lg)
      (serverMask cfg meta rngS uAI lg) r1 r2 t1 t2 cfg.size with ⟨aiOut, evs⟩
  cases aiOut <;> rfl

/-- Claim C7 (corrected): counterexample to the claim as stated.  With
the OpenAI provider enabled and both attempts yielding nothing, the
delivered image has fallback provenance yet carries the generative
caption: the caption of server.mjs line 279 tests USE_OPENAI, not which
image is being sent. -/
theorem C7_counterexample :
    cfgOn.useOpenai = true ∧
    (serverHandler cfgOn envBothFail).deliveredProvenance = some Provenance.fallback ∧
    (serverHandler cfgOn envBothFail).deliveredCaption = some Caption.blended :=
  ⟨rfl, rfl, rfl⟩

/-- Claim C7 (corrected, amended): in the Gemini variant the caption
does indicate provenance (the generative caption appears exactly when
the provider returned an image); in the OpenAI variant the caption of a
delivered photo depends only on whether the provider is configured, so
with the provider enabled a fallback image carries the generative
caption. -/
theorem C7_caption_provenance :
    (∀ (meta : SImg → ℤ × ℤ) (size : ℤ) (env : GeminiEnv) (img : SImg) (c : Caption),
      geminiHandler meta size env = GReply.photo img c →
      (c = Caption.genPfp ↔ ∃ i, env.aiResp = GeminiResp.body (some (some i)))) ∧
    (∀ (cfg : SCfg) (env : SEnv) (d : Delivered),
      serverHandler cfg env = SReply.photo d →
      d.caption = (if cfg.useOpenai then Caption.blended else Caption.plain)) := by
  constructor
  · intro meta size env img c h
    unfold geminiHandler at h
    rcases hf : env.fileId with _ | fid <;> rw [hf] at h
    · exact absurd h (by simp)
    · rcases ho : env.original with e | o <;> rw [ho] at h
      · exact absurd h (by simp)
      · rcases hn : env.userNorm with e | un <;> rw [hn] at h
        · exact absurd h (by simp)
        · rcases hl : env.logoBuf with e | lb <;> rw [hl] at h
          · exact absurd h (by simp)
          · rcases ha : env.aiResp with _ | p
            · rw [ha] at h; simp [aiInsertLogoCat] at h
            · rcases p with _ | q
              · rw [ha] at h; simp [aiInsertLogoCat] at h
              · rcases q with _ | i0
                · rw [ha] at h
                  simp only [aiInsertLogoCat] at h
                  obtain ⟨h1, h2⟩ := GReply.photo.inj h
                  subst h2
                  simp [ha]
                · rw [ha] at h
                  simp only [aiInsertLogoCat] at h
                  obtain ⟨h1, h2⟩ := GReply.photo.inj h
                  subst h2
                  simp [ha]
  · intro cfg env d h
    unfold serverHandler at h
    rcases hf : env.fileId with _ | fid <;> rw [hf] at h
    · exact absurd h (by simp)
    · rcases ho : env.original with e | o <;> rw [ho] at h
      · exact absurd h (by simp)
      · rcases hn : env.normAI with e | uAI <;> rw [hn] at h
        · exact absurd h (by simp)
        · rcases hm : env.normOut with e | uOut <;> rw [hm] at h
          · exact absurd h (by simp)
          · rcases hl : env.logo with e | lg <;> rw [hl] at h
            · exact absurd h (by simp)
            · obtain h1 := SReply.photo.inj h
              rw [← h1, serverCore_caption]
              rfl

/-- Witness for the amended C7: the Gemini fallback photo carries the
sticker caption and indeed the response had no image. -/
theorem C7_witness :
    geminiHandler metaSquare 1024 gEnvNoImg =
      GReply.photo (fallbackOverlay metaSquare (SImg.raw 1) (SImg.raw 2) 1024)
        Caption.shySticker ∧
    (Caption.shySticker = Caption.genPfp ↔
      ∃ i, gEnvNoImg.aiResp = GeminiResp.body (some (some i))) :=
  ⟨rfl, (C7_caption_provenance).1 metaSquare 1024 gEnvNoImg
    (fallbackOverlay metaSquare (SImg.raw 1) (SImg.raw 2) 1024) Caption.shySticker rfl⟩

namespace LogoCache

/-- The initial system satisfies the cache invariant. -/
theorem inv_init : Inv initSys := by
  refine ⟨⟨?_, ?_, ?_⟩, ⟨?_, ?_, ?_⟩⟩ <;> intro h <;> simp [initSys, initThread] at h

/-- One atomic step of a caller preserves both its own invariant and
that of the other caller against the updated cache. -/
theorem stepThread_preserve (fv : ℕ) (cache : Option ℕ) (n : ℕ) (t u : Thread)
    (ht : ThreadInv cache t) (hu : ThreadInv cache u) :
    ThreadInv (stepThread fv cache n t).1 (stepThread fv cache n t).2.2 ∧
    ThreadInv (stepThread fv cache n t).1 u := by
  obtain ⟨pc, buf, res⟩ := t
  obtain ⟨ta, tr, td⟩ := ht
  obtain ⟨ua, ur, ud⟩ := hu
  cases pc with
  | check =>
    cases cache with
    | some v =>
      exact ⟨⟨fun h => by simp [stepThread] at h, fun h => by simp [stepThread] at h,
        fun _ => ⟨v, rfl⟩⟩, ⟨ua, ur, ud⟩⟩
    | none =>
      exact ⟨⟨fun h => by simp [stepThread] at h, fun h => by simp [stepThread] at h,
        fun h => by simp [stepThread] at h⟩, ⟨ua, ur, ud⟩⟩
  | fetch =>
    exact ⟨⟨fun _ => rfl, fun h => by simp [stepThread] at h,
      fun h => by simp [stepThread] at h⟩, ⟨ua, ur, ud⟩⟩
  | assign =>
    exact ⟨⟨fun h => by simp [stepThread] at h, fun _ => ta rfl,
      fun h => by simp [stepThread] at h⟩, ⟨ua, fun _ => ta rfl, ud⟩⟩
  | ret =>
    refine ⟨⟨fun h => by simp [stepThread] at h, fun h => by simp [stepThread] at h,
      fun _ => ?_⟩, ⟨ua, ur, ud⟩⟩
    obtain ⟨b, hb⟩ := Option.isSome_iff_exists.mp (tr rfl)
    exact ⟨b, by simp [stepThread, hb]⟩
  | done =>
    exact ⟨⟨ta, tr, td⟩, ⟨ua, ur, ud⟩⟩

/-- A scheduler step preserves the joint invariant. -/
theorem inv_step (f1 f2 : ℕ) (s : Sys) (b : Bool) (h : Inv s) :
    Inv (step f1 f2 s b) := by
  obtain ⟨h1, h2⟩ := h
  cases b with
  | false =>
    have hp := stepThread_preserve f1 s.cache s.fetches s.t1 s.t2 h1 h2
    exact ⟨hp.1, hp.2⟩
  | true =>
    have hp := stepThread_preserve f2 s.cache s.fetches s.t2 s.t1 h2 h1
    exact ⟨hp.2, hp.1⟩

/-- The joint invariant holds after any interleaving. -/
theorem inv_run (f1 f2 : ℕ) (sched : List Bool) (s : Sys) (h : Inv s) :
    Inv (run f1 f2 sched s) := by
  induction sched generalizing s with
  | nil => exact h
  | cons c cs ih => exact ih (step f1 f2 s c) (inv_step f1 f2 s c h)

/-- Claim C9 (corrected): counterexample to the claim as stated.  In the
interleaving where both first time callers pass the cache check before
either fetch completes, two fetches of the mascot source occur (not
exactly one), and with the two fetches producing buffers 1 and 2 the two
callers return different bytes: getLogoBuffer is a bare check-then-act
global, with no single flight guard. -/
theorem C9_counterexample :
    (run 1 2 raceSched initSys).fetches = 2 ∧
    (run 1 2 raceSched initSys).t1.result = some (some 1) ∧
    (run 1 2 raceSched initSys).t2.result = some (some 2) := by
  decide

/-- Claim C9 (corrected, amended): concurrent first calls may each issue
a fetch and may return buffers from different fetches, but under every
interleaving no caller ever observes a partially populated cache: every
caller that completes returns a fully populated buffer. -/
theorem C9_no_partial_cache (f1 f2 : ℕ) (sched : List Bool)
    (h1 : (run f1 f2 sched initSys).t1.pc = PC.done)
    (h2 : (run f1 f2 sched initSys).t2.pc = PC.done) :
    (∃ b, (run f1 f2 sched initSys).t1.result = some (some b)) ∧
    (∃ b, (run f1 f2 sched initSys).t2.result = some (some b)) := by
  have hinv := inv_run f1 f2 sched initSys inv_init
  exact ⟨hinv.1.2.2 h1, hinv.2.2.2 h2⟩

/-- Witness for the amended C9 at the duplicate fetch interleaving. -/
theorem C9_witness :
    ((run 1 2 raceSched initSys).t1.pc = PC.done ∧
     (run 1 2 raceSched initSys).t2.pc = PC.done) ∧
    (∃ b, (run 1 2 raceSched initSys).t1.result = some (some b)) ∧
    (∃ b, (run 1 2 raceSched initSys).t2.result = some (some b)) :=
  ⟨⟨by decide, by decide⟩, C9_no_partial_cache 1 2 raceSched (by decide) (by decide)⟩

end LogoCache

end Tang
